import Mathlib

/-!
Verification of the console-share proxy/bridge engine.

The repository has two variants of the engine:
* `src/console_share/__init__.py` — the websocat-based variant
  (`IncusConsoleProxy`: endpoint resolution, instance classification,
  console creation, the supervised retry loop `start_proxy`).
* `src/src/console_share/{proxy,config,incus}.py` — the socat-based variant
  (`Proxy`: the registry of active bridges, shell/console/VGA start
  operations, `stop_proxy`, and `Config`).

Strings are embedded as `List Char` so that the string operations the code
uses (prefix tests, containment, splitting) can be reasoned about by
structural induction.
-/

abbrev Str := List Char

/-- Character-containment test, embedding the Python expression `c in s`. -/
def strContains (s : Str) (c : Char) : Bool :=
  s.any (fun d => decide (d = c))

/-- Substring test, embedding the Python expression `needle in hay`
(true when `needle` occurs contiguously inside `hay`). -/
def isSubstring (n : Str) : Str → Bool
  | [] => n.isPrefixOf []
  | c :: t => n.isPrefixOf (c :: t) || isSubstring n t

/-- Worker for `strSplitOn`: scans the string, cutting at each occurrence of
the separator, exactly as Python `str.split(sep)` does.  The fuel argument
is the length of the scanned string, so the zero-fuel case is unreachable. -/
def splitOnGo (sep : Str) : Nat → Str → Str → List Str
  | _, [], acc => [acc.reverse]
  | 0, s, acc => [acc.reverse ++ s]
  | fuel + 1, c :: rest, acc =>
    if sep.isPrefixOf (c :: rest) then
      acc.reverse :: splitOnGo sep fuel (List.drop (sep.length - 1) rest) []
    else
      splitOnGo sep fuel rest (c :: acc)

/-- Embedding of Python `s.split(sep)` for a non-empty separator. -/
def strSplitOn (sep s : Str) : List Str :=
  splitOnGo sep s.length s []

/-- Embedding of `IncusConsoleProxy.__init__` line 37: the constructor
replaces an empty (falsy) remote specification by the default unix socket,
`self.remote = remote or "unix:/var/lib/incus/unix.socket"`. -/
def initRemote (remote : Str) : Str :=
  if remote = [] then "unix:/var/lib/incus/unix.socket".toList else remote

/-- Embedding of `IncusConsoleProxy.get_scheme_and_host`
(`src/console_share/__init__.py` lines 46-61). -/
def get_scheme_and_host (remote : Str) : Str × Str :=
  if ("unix:".toList).isPrefixOf remote then
    ("https+unix".toList, remote.drop 5 ++ ":/".toList)
  else if ("http://".toList).isPrefixOf remote || ("https://".toList).isPrefixOf remote then
    ("https".toList, (strSplitOn "://".toList remote).getD 1 [])
  else if strContains remote ':' = false then
    ("https".toList, remote ++ ":8443".toList)
  else
    ("https".toList, remote)

/-- The JSON body of the console-creation request
(`IncusConsoleProxy.create_console` lines 140-153). -/
structure ConsoleRequest where
  width : Nat
  height : Nat
  type : Str
  force : Bool
deriving DecidableEq

/-- Embedding of the body selection in `create_console`: containers get the
80x25 text console body, virtual machines the 1024x768 vga body. -/
def create_console_body (is_container : Bool) : ConsoleRequest :=
  if is_container then
    { width := 80, height := 25, type := "console".toList, force := true }
  else
    { width := 1024, height := 768, type := "vga".toList, force := true }

/-- Embedding of the websocket-URL construction in
`IncusConsoleProxy.get_websocat_command` (lines 178-188). -/
def build_ws_url (remote operation_id console_secret project : Str) : Str :=
  if (get_scheme_and_host remote).1 = "https+unix".toList then
    "ws+unix:".toList ++
      (strSplitOn ":/".toList (get_scheme_and_host remote).2).getD 0 [] ++
      ":/1.0/operations/".toList ++ operation_id ++
      "/websocket?secret=".toList ++ console_secret ++ "&project=".toList ++ project
  else
    "wss://".toList ++ (get_scheme_and_host remote).2 ++
      "/1.0/operations/".toList ++ operation_id ++
      "/websocket?secret=".toList ++ console_secret ++ "&project=".toList ++ project

/-- Outcome of the metadata query performed by `get_instance_info` /
`api_request`: a successful response carrying the instance `type` field
(`""` when absent, via `info.get("type", "")`), a non-success HTTP status
(raised as an exception by `api_request` line 95), or a connection error
(raised as an exception by `api_request` lines 96-106). -/
inductive ApiResult
  | success (instanceType : Str)
  | httpError (status : Nat)
  | connectionError
deriving DecidableEq

/-- `get_instance_info` returns the metadata on success and re-raises any
exception from `api_request` (lines 108-115). -/
def get_instance_info_outcome : ApiResult → Except Unit Str
  | ApiResult.success t => Except.ok t
  | ApiResult.httpError _ => Except.error ()
  | ApiResult.connectionError => Except.error ()

/-- Embedding of `IncusConsoleProxy.determine_instance_type` (lines 117-132):
the whole body is a `try` whose `except Exception` branch sets
`is_container = True` without re-raising; on success, `is_container` is
false exactly when the reported type is `"virtual-machine"`.  The `Except`
codomain records whether the call itself can propagate an exception. -/
def determine_instance_type (r : ApiResult) : Except Unit Bool :=
  match get_instance_info_outcome r with
  | Except.ok info =>
      Except.ok (if info = "virtual-machine".toList then false else true)
  | Except.error _ => Except.ok true

/-- `MAX_RETRIES` from `src/console_share/__init__.py` line 32. -/
def MAX_RETRIES : Nat := 3

/-- What one iteration of the `while True` loop in
`IncusConsoleProxy.start_proxy` (lines 220-287) does, abstracted over the
environment: the iteration either fails before the child process is created
(`create_console` or `create_subprocess_exec` raises), or creates the child
(which resets `retry_count` to 0 at line 249) and later observes it exit
(the monitoring loop raises at line 264), or is cancelled — before the
child exists, or while monitoring it (after the reset). -/
inductive IterEvent
  | sessionFail
  | spawnOkThenExit
  | cancelledEarly
  | spawnOkCancelled
deriving DecidableEq

/-- Terminal outcomes of the supervision loop: `GivenUp` is the break at
line 284 (retry budget exhausted), `Stopped` the break at line 273
(`asyncio.CancelledError`). -/
inductive LoopOutcome
  | GivenUp
  | Stopped
deriving DecidableEq

/-- Runs the supervision loop of `start_proxy` from a given `retry_count`
over a finite schedule of iteration events.  Returns the final
`retry_count`, the number of loop iterations executed (= attempts made),
and the terminal outcome (`none` when the schedule ran out with the loop
still supervising).  The failure arms mirror lines 275-287: increment
`retry_count`, give up when it exceeds `MAX_RETRIES`, otherwise sleep and
loop; in the `spawnOkThenExit` arm the increment starts from 0 because
line 249 reset the counter when the child was created. -/
def start_proxy_run : Nat → List IterEvent → Nat × Nat × Option LoopOutcome
  | rc, [] => (rc, 0, none)
  | rc, e :: es =>
    match e with
    | IterEvent.cancelledEarly => (rc, 1, some LoopOutcome.Stopped)
    | IterEvent.spawnOkCancelled => (0, 1, some LoopOutcome.Stopped)
    | IterEvent.sessionFail =>
      let rc1 := rc + 1
      if MAX_RETRIES < rc1 then (rc1, 1, some LoopOutcome.GivenUp)
      else
        let r := start_proxy_run rc1 es
        (r.1, r.2.1 + 1, r.2.2)
    | IterEvent.spawnOkThenExit =>
      let rc1 := 0 + 1
      if MAX_RETRIES < rc1 then (rc1, 1, some LoopOutcome.GivenUp)
      else
        let r := start_proxy_run rc1 es
        (r.1, r.2.1 + 1, r.2.2)

/-- Python-dict lookup on an association list (`d[k]` / `d.get(k)`). -/
def dictGet {α : Type} (k : Str) : List (Str × α) → Option α
  | [] => none
  | (k1, v) :: t => if k1 = k then some v else dictGet k t

/-- Python-dict assignment `d[k] = v` on an association list: replaces the
binding in place when the key is present, appends it otherwise. -/
def dictInsert {α : Type} (k : Str) (v : α) : List (Str × α) → List (Str × α)
  | [] => [(k, v)]
  | (k1, v1) :: t => if k1 = k then (k, v) :: t else (k1, v1) :: dictInsert k v t

/-- State of the socat-based `Proxy` object (`src/src/console_share/proxy.py`):
`active_proxies` is the registry dict keyed by `"<kind>_<instance>"`,
`socket_paths` the dict of captured VGA socket paths keyed by instance name,
`running` the set of live child processes spawned so far (by pid),
`fs` the set of files on disk that the object may unlink, and
`nextPid` the pid the next `subprocess.Popen` will produce. -/
structure ProxyState where
  active_proxies : List (Str × Nat)
  socket_paths : List (Str × Str)
  running : List Nat
  fs : List Str
  nextPid : Nat
deriving DecidableEq

/-- The registry key `f"<kind>_<instance>"`. -/
def bridgeKey (kind name : Str) : Str := kind ++ '_' :: name

/-- Common effect of `proxy_shell` (lines 69-87), `_proxy_regular_console`
(lines 100-113) and the registry step of `_proxy_vga_console` (lines
151-152): spawn a new child process and store it in `active_proxies` under
`"<kind>_<instance>"`.  Nothing terminates or checks a previously
registered process. -/
def start_bridge (kind name : Str) (st : ProxyState) : ProxyState :=
  { st with
    running := st.nextPid :: st.running,
    nextPid := st.nextPid + 1,
    active_proxies := dictInsert (bridgeKey kind name) st.nextPid st.active_proxies }

/-- `Proxy.proxy_shell` registry/process effect. -/
def proxy_shell (name : Str) (st : ProxyState) : ProxyState :=
  start_bridge "shell".toList name st

/-- `Proxy._proxy_regular_console` registry/process effect. -/
def proxy_regular_console (name : Str) (st : ProxyState) : ProxyState :=
  start_bridge "console".toList name st

/-- Embedding of `Proxy.stop_proxy` (lines 165-188): terminate and drop
every registry entry whose key contains the instance name as a substring
(`if instance_name in key`); then, when `socket_paths` holds the instance
name, unlink the recorded socket file and delete the entry — the `del` is
skipped when the unlink raises because the file is absent (the bare
`except: pass` covers both statements). -/
def stop_proxy (name : Str) (st : ProxyState) : ProxyState :=
  let matched := st.active_proxies.filter (fun kv => isSubstring name kv.1)
  let sockEffect : List (Str × Str) × List Str :=
    match dictGet name st.socket_paths with
    | some p =>
      if p ∈ st.fs then
        (st.socket_paths.filter (fun kv => decide (kv.1 ≠ name)),
         st.fs.filter (fun q => decide (q ≠ p)))
      else
        (st.socket_paths, st.fs)
    | none => (st.socket_paths, st.fs)
  { active_proxies := st.active_proxies.filter (fun kv => !(isSubstring name kv.1)),
    socket_paths := sockEffect.1,
    fs := sockEffect.2,
    running := st.running.filter (fun pid => !(matched.any (fun kv => decide (kv.2 = pid)))),
    nextPid := st.nextPid }

/-- The `start_port` default from `DEFAULT_CONFIG` in
`src/src/console_share/config.py` line 10, and the per-instance section of
the configuration (the `port` key may be absent from a section). -/
structure InstanceCfg where
  port : Option Nat
  enabled : Bool
deriving DecidableEq

/-- The configuration data `Config.get_next_port` and
`Config.get_instance_config` read. -/
structure Config where
  start_port : Nat
  instances : List (Str × InstanceCfg)
deriving DecidableEq

/-- `DEFAULT_CONFIG` (config.py lines 7-20): `start_port` 8000, no
instances. -/
def default_config : Config := { start_port := 8000, instances := [] }

/-- Embedding of `Config.get_next_port` (config.py lines 50-53): the body is
`return self.config["proxy"]["start_port"]` — no port tracking at all. -/
def get_next_port (cfg : Config) : Nat := cfg.start_port

/-- Embedding of `Config.get_instance_config` (config.py lines 99-101). -/
def get_instance_config (cfg : Config) (name : Str) : Option InstanceCfg :=
  dictGet name cfg.instances

/-- The port selection at the top of `Proxy.proxy_shell` / `proxy_console`
(proxy.py lines 71-73): an explicit port wins; otherwise the instance
section's `port` key is used when the section exists; otherwise
`get_next_port`. -/
def resolve_listen_port (cfg : Config) (name : Str) (port : Option Nat) : Option Nat :=
  match port with
  | some p => some p
  | none =>
    match get_instance_config cfg name with
    | some ic => ic.port
    | none => some (get_next_port cfg)

/-- File-set insertion (writing a file creates it if absent). -/
def fsAdd (p : Str) (fs : List Str) : List Str :=
  if p ∈ fs then fs else p :: fs

/-- File-set removal: `os.unlink(p)` wrapped in `try/except: pass`. -/
def fsRemove (p : Str) (fs : List Str) : List Str :=
  fs.filter (fun q => decide (q ≠ p))

/-- The path of the stand-in executable written by
`Proxy._create_fake_remote_viewer` (proxy.py lines 39-52):
`Path(self.config.remote_viewer_path) / "remote-viewer"`. -/
def fake_viewer_path (viewer_dir : Str) : Str :=
  viewer_dir ++ "/remote-viewer".toList

/-- Outcome of `Proxy._get_socket_path_from_log` (proxy.py lines 54-67):
either a socket path was captured within the timeout, or the poll timed
out and `ProxyError` was raised. -/
inductive CaptureOutcome
  | captured (socket_path : Str)
  | timedOut
deriving DecidableEq

/-- File effects of `Proxy._proxy_vga_console` (proxy.py lines 115-163):
the stand-in `remote-viewer` is written; then, whatever happens —
capture timeout (`ProxyError` re-raised as "Failed to start VGA console
proxy"), a captured-but-missing socket path, or full success — the
`finally` block unlinks only `socket_log`.  No path removes the stand-in.
Returns the resulting file set and whether the call succeeded. -/
def proxy_vga_console_files (viewer_dir socket_log : Str) (cap : CaptureOutcome)
    (fs : List Str) : List Str × Bool :=
  match cap with
  | CaptureOutcome.timedOut =>
    (fsRemove socket_log (fsAdd (fake_viewer_path viewer_dir) fs), false)
  | CaptureOutcome.captured sp =>
    (fsRemove socket_log (fsAdd (fake_viewer_path viewer_dir) fs),
     decide (sp ≠ []) && decide (sp ∈ fsAdd (fake_viewer_path viewer_dir) fs))

/-- On a schedule of consecutive pre-spawn failures, the supervision loop
increments the counter each iteration and breaks with `GivenUp` on the
iteration that pushes it past `MAX_RETRIES`. -/
theorem start_proxy_run_allFail :
    ∀ (es : List IterEvent), (∀ e ∈ es, e = IterEvent.sessionFail) →
      ∀ rc, rc ≤ MAX_RETRIES →
        start_proxy_run rc es =
          if rc + es.length ≤ MAX_RETRIES then (rc + es.length, es.length, none)
          else (MAX_RETRIES + 1, MAX_RETRIES + 1 - rc, some LoopOutcome.GivenUp) := by
  intro es
  induction es with
  | nil =>
    intro _ rc hrc
    rw [if_pos (by simpa using hrc)]
    simp [start_proxy_run]
  | cons e t ih =>
    intro hall rc hrc
    have he : e = IterEvent.sessionFail := hall e (by simp)
    subst he
    have ht : ∀ x ∈ t, x = IterEvent.sessionFail := fun x hx => hall x (by simp [hx])
    by_cases h : MAX_RETRIES < rc + 1
    · have hrc3 : rc = MAX_RETRIES := by omega
      subst hrc3
      rw [if_neg (by simp)]
      simp [start_proxy_run, h]
    · have hrec := ih ht (rc + 1) (by omega)
      by_cases h2 : rc + 1 + t.length ≤ MAX_RETRIES
      · rw [if_pos (by simp; omega)]
        simp only [start_proxy_run, if_neg h, hrec, if_pos h2]
        simp [Prod.ext_iff]
        omega
      · rw [if_neg (by simp; omega)]
        simp only [start_proxy_run, if_neg h, hrec, if_neg h2]
        simp [Prod.ext_iff]
        omega

/-- Running the loop over `xs ++ ys` when `xs` does not terminate the loop
equals running `xs`, then `ys` from the resulting counter, with iteration
counts adding. -/
theorem start_proxy_run_append_none :
    ∀ (xs : List IterEvent) (rc : Nat) (ys : List IterEvent),
      (start_proxy_run rc xs).2.2 = none →
      start_proxy_run rc (xs ++ ys) =
        ((start_proxy_run (start_proxy_run rc xs).1 ys).1,
         (start_proxy_run rc xs).2.1 + (start_proxy_run (start_proxy_run rc xs).1 ys).2.1,
         (start_proxy_run (start_proxy_run rc xs).1 ys).2.2) := by
  intro xs
  induction xs with
  | nil => intro rc ys _; simp [start_proxy_run]
  | cons e t ih =>
    intro rc ys hnone
    cases e with
    | cancelledEarly => simp [start_proxy_run] at hnone
    | spawnOkCancelled => simp [start_proxy_run] at hnone
    | sessionFail =>
      by_cases h : MAX_RETRIES < rc + 1
      · simp [start_proxy_run, h] at hnone
      · simp only [start_proxy_run, if_neg h, List.cons_append] at hnone ⊢
        have ht : (start_proxy_run (rc + 1) t).2.2 = none := hnone
        simp only [List.append_eq]
        rw [ih (rc + 1) ys ht]
        simp [Prod.ext_iff]
        omega
    | spawnOkThenExit =>
      by_cases h : MAX_RETRIES < 0 + 1
      · simp [MAX_RETRIES] at h
      · simp only [start_proxy_run, if_neg h, List.cons_append] at hnone ⊢
        have ht : (start_proxy_run (0 + 1) t).2.2 = none := hnone
        simp only [List.append_eq]
        rw [ih (0 + 1) ys ht]
        simp [Prod.ext_iff]
        omega

/-- C1: in `IncusConsoleProxy.start_proxy`, an uninterrupted sequence of
consecutive bridge failures executes at most `MAX_RETRIES + 1 = 4` spawn
attempts, and once `MAX_RETRIES + 1` consecutive failures have occurred the
loop terminates with the `GivenUp` outcome after exactly the fourth
attempt — a fifth attempt is never started. -/
theorem start_proxy_gives_up_at_cap (es : List IterEvent)
    (hall : ∀ e ∈ es, e = IterEvent.sessionFail) :
    (start_proxy_run 0 es).2.1 ≤ MAX_RETRIES + 1 ∧
    (MAX_RETRIES + 1 ≤ es.length →
      (start_proxy_run 0 es).2.2 = some LoopOutcome.GivenUp ∧
      (start_proxy_run 0 es).2.1 = MAX_RETRIES + 1) := by
  have h := start_proxy_run_allFail es hall 0 (by omega)
  by_cases hc : 0 + es.length ≤ MAX_RETRIES
  · rw [h, if_pos hc]
    refine ⟨by simpa using by omega, fun hlen => absurd hlen (by omega)⟩
  · rw [h, if_neg hc]
    exact ⟨by simp, fun _ => ⟨rfl, by simp⟩⟩

/-- Witness for `start_proxy_gives_up_at_cap` at a schedule of four
consecutive failures. -/
theorem start_proxy_gives_up_at_cap_witness :
    (start_proxy_run 0 (List.replicate 4 IterEvent.sessionFail)).2.2 =
        some LoopOutcome.GivenUp ∧
    (start_proxy_run 0 (List.replicate 4 IterEvent.sessionFail)).2.1 = MAX_RETRIES + 1 :=
  (start_proxy_gives_up_at_cap (List.replicate 4 IterEvent.sessionFail)
    (by decide)).2 (by decide)

/-- C7: the retry counter is reset to 0 on every successful transition to
Running, so failure counts never accumulate across successful runs: a
prefix of `N ≤ MAX_RETRIES` failures followed by a successful spawn leaves
the rest of the run (final counter, outcome) exactly as if the `N` failures
had never happened, shifting only the attempt count by `N`; and a run that
is cancelled right after a successful spawn ends with counter 0 no matter
how many failures preceded the spawn within the current sequence. -/
theorem retry_counter_resets_on_running (N : Nat) (hN : N ≤ MAX_RETRIES)
    (es : List IterEvent) :
    (start_proxy_run 0 (List.replicate N IterEvent.sessionFail ++
        IterEvent.spawnOkThenExit :: es)).1 =
      (start_proxy_run 0 (IterEvent.spawnOkThenExit :: es)).1 ∧
    (start_proxy_run 0 (List.replicate N IterEvent.sessionFail ++
        IterEvent.spawnOkThenExit :: es)).2.2 =
      (start_proxy_run 0 (IterEvent.spawnOkThenExit :: es)).2.2 ∧
    (start_proxy_run 0 (List.replicate N IterEvent.sessionFail ++
        IterEvent.spawnOkThenExit :: es)).2.1 =
      N + (start_proxy_run 0 (IterEvent.spawnOkThenExit :: es)).2.1 ∧
    (∀ rc, start_proxy_run rc (IterEvent.spawnOkCancelled :: es) =
      (0, 1, some LoopOutcome.Stopped)) := by
  have hall : ∀ e ∈ List.replicate N IterEvent.sessionFail, e = IterEvent.sessionFail :=
    fun e he => List.eq_of_mem_replicate he
  have hpre := start_proxy_run_allFail (List.replicate N IterEvent.sessionFail) hall 0 (by omega)
  rw [if_pos (by simpa using hN)] at hpre
  have hnone : (start_proxy_run 0 (List.replicate N IterEvent.sessionFail)).2.2 = none := by
    rw [hpre]
  have hap := start_proxy_run_append_none (List.replicate N IterEvent.sessionFail) 0
    (IterEvent.spawnOkThenExit :: es) hnone
  rw [hpre] at hap
  simp only [List.length_replicate, Nat.zero_add] at hap
  have hsame : start_proxy_run N (IterEvent.spawnOkThenExit :: es) =
      start_proxy_run 0 (IterEvent.spawnOkThenExit :: es) := rfl
  rw [hsame] at hap
  refine ⟨by rw [hap], by rw [hap], by rw [hap], fun rc => rfl⟩

/-- Witness for `retry_counter_resets_on_running`: two failures, then a
successful run. -/
theorem retry_counter_resets_on_running_witness :
    (start_proxy_run 0 (List.replicate 2 IterEvent.sessionFail ++
        IterEvent.spawnOkThenExit :: [])).1 =
      (start_proxy_run 0 (IterEvent.spawnOkThenExit :: [])).1 ∧
    (start_proxy_run 0 (List.replicate 2 IterEvent.sessionFail ++
        IterEvent.spawnOkThenExit :: [])).2.2 =
      (start_proxy_run 0 (IterEvent.spawnOkThenExit :: [])).2.2 ∧
    (start_proxy_run 0 (List.replicate 2 IterEvent.sessionFail ++
        IterEvent.spawnOkThenExit :: [])).2.1 =
      2 + (start_proxy_run 0 (IterEvent.spawnOkThenExit :: [])).2.1 ∧
    (∀ rc, start_proxy_run rc (IterEvent.spawnOkCancelled :: []) =
      (0, 1, some LoopOutcome.Stopped)) :=
  retry_counter_resets_on_running 2 (by decide) []

/-- `strContains` agrees with list membership. -/
theorem strContains_iff {s : Str} {c : Char} : strContains s c = true ↔ c ∈ s := by
  simp [strContains, List.any_eq_true]

/-- On the bare-host branch (no colon anywhere in the remote), resolution
appends the default management port 8443. -/
theorem get_scheme_and_host_bare {host : Str} (h : strContains host ':' = false) :
    get_scheme_and_host host = ("https".toList, host ++ ":8443".toList) := by
  have hmem : ':' ∉ host := fun hc => by
    rw [strContains_iff.mpr hc] at h
    cases h
  have h1 : ¬ ("unix:".toList <+: host) := fun hp => absurd (hp.subset (by decide)) hmem
  have h2 : ¬ ("http://".toList <+: host) := fun hp => absurd (hp.subset (by decide)) hmem
  have h3 : ¬ ("https://".toList <+: host) := fun hp => absurd (hp.subset (by decide)) hmem
  simp only [get_scheme_and_host]
  split_ifs with hA hB
  · exact absurd (List.isPrefixOf_iff_prefix.mp hA) h1
  · rw [Bool.or_eq_true] at hB
    rcases hB with hb | hb
    · exact absurd (List.isPrefixOf_iff_prefix.mp hb) h2
    · exact absurd (List.isPrefixOf_iff_prefix.mp hb) h3
  · rfl

/-- When the separator never occurs in the scanned string, `splitOnGo`
returns a single chunk. -/
theorem splitOnGo_no_occurrence (sep : Str) :
    ∀ (s acc : Str) (fuel : Nat), s.length ≤ fuel → isSubstring sep s = false →
      splitOnGo sep fuel s acc = [acc.reverse ++ s] := by
  intro s
  induction s with
  | nil =>
    intro acc fuel _ _
    cases fuel <;> simp [splitOnGo]
  | cons c t ih =>
    intro acc fuel hf hsub
    cases fuel with
    | zero => simp at hf
    | succ f =>
      rw [isSubstring, Bool.or_eq_false_iff] at hsub
      simp only [splitOnGo, hsub.1, Bool.false_eq_true, if_false]
      rw [ih (c :: acc) f (by simpa using hf) hsub.2]
      simp

/-- Splitting `"https://" ++ rest` on `"://"` peels off the scheme chunk. -/
theorem strSplitOn_https (rest : Str) :
    strSplitOn "://".toList ("https://".toList ++ rest) =
      "https".toList :: splitOnGo "://".toList (rest.length + 2) rest [] := by
  simp [strSplitOn, splitOnGo, List.isPrefixOf]

/-- Splitting `"http://" ++ rest` on `"://"` peels off the scheme chunk. -/
theorem strSplitOn_http (rest : Str) :
    strSplitOn "://".toList ("http://".toList ++ rest) =
      "http".toList :: splitOnGo "://".toList (rest.length + 2) rest [] := by
  simp [strSplitOn, splitOnGo, List.isPrefixOf]

/-- On the explicit-https-scheme branch, when the remainder itself contains
no further scheme separator, resolution returns the remainder as host. -/
theorem get_scheme_and_host_https (rest : Str)
    (hno : isSubstring "://".toList rest = false) :
    get_scheme_and_host ("https://".toList ++ rest) = ("https".toList, rest) := by
  have h1 : ("unix:".toList).isPrefixOf ("https://".toList ++ rest) = false := rfl
  have h2 : ("https://".toList).isPrefixOf ("https://".toList ++ rest) = true :=
    List.isPrefixOf_iff_prefix.mpr (List.prefix_append _ _)
  simp only [get_scheme_and_host]
  split_ifs with hA hB
  · rw [h1] at hA
    exact Bool.noConfusion hA
  · rw [strSplitOn_https,
      splitOnGo_no_occurrence _ rest [] (rest.length + 2) (by omega) hno]
    simp
  · exact absurd (by rw [h2, Bool.or_true]) hB
  · exact absurd (by rw [h2, Bool.or_true]) hB

/-- On the explicit-http-scheme branch, when the remainder itself contains
no further scheme separator, resolution returns the remainder as host. -/
theorem get_scheme_and_host_http (rest : Str)
    (hno : isSubstring "://".toList rest = false) :
    get_scheme_and_host ("http://".toList ++ rest) = ("https".toList, rest) := by
  have h1 : ("unix:".toList).isPrefixOf ("http://".toList ++ rest) = false := rfl
  have h2 : ("http://".toList).isPrefixOf ("http://".toList ++ rest) = true :=
    List.isPrefixOf_iff_prefix.mpr (List.prefix_append _ _)
  simp only [get_scheme_and_host]
  split_ifs with hA hB
  · rw [h1] at hA
    exact Bool.noConfusion hA
  · rw [strSplitOn_http,
      splitOnGo_no_occurrence _ rest [] (rest.length + 2) (by omega) hno]
    simp
  · exact absurd (by rw [h2, Bool.true_or]) hB
  · exact absurd (by rw [h2, Bool.true_or]) hB

/-- On the local-pipe branch, resolution returns the pipe path with the
suffix `":/"` appended and the scheme `https+unix`. -/
theorem get_scheme_and_host_unix {remote : Str}
    (h : ("unix:".toList).isPrefixOf remote = true) :
    get_scheme_and_host remote = ("https+unix".toList, remote.drop 5 ++ ":/".toList) := by
  simp only [get_scheme_and_host]
  split_ifs
  rfl

/-- C3: `determine_instance_type` never propagates an exception — for every
outcome of the metadata query it returns a classification, and whenever the
metadata fetch fails (non-success HTTP status, connection error, or any
other exception from `get_instance_info`) the classification is
deterministically the text console (`is_container = true`). -/
theorem determine_instance_type_never_raises (r : ApiResult) :
    (∃ b, determine_instance_type r = Except.ok b) ∧
    (∀ e, get_instance_info_outcome r = Except.error e →
      determine_instance_type r = Except.ok true) ∧
    (∀ s, determine_instance_type (ApiResult.httpError s) = Except.ok true) ∧
    determine_instance_type ApiResult.connectionError = Except.ok true := by
  refine ⟨?_, ?_, fun s => rfl, rfl⟩
  · cases r with
    | success t => exact ⟨_, rfl⟩
    | httpError s => exact ⟨true, rfl⟩
    | connectionError => exact ⟨true, rfl⟩
  · intro e he
    cases r with
    | success t => simp [get_instance_info_outcome] at he
    | httpError s => rfl
    | connectionError => rfl

/-- Witness for `determine_instance_type_never_raises`: an HTTP 500 from
the metadata query classifies the instance as a container. -/
theorem determine_instance_type_never_raises_witness :
    determine_instance_type (ApiResult.httpError 500) = Except.ok true :=
  (determine_instance_type_never_raises (ApiResult.httpError 500)).2.1 () rfl

/-- C4: for a container instance the console-creation request body is
exactly width 80, height 25, type "console", force true; and for a
networked remote with no explicit port the bridge target URL is exactly
wss followed by the host, the default port 8443, the operations path for
the operation id, and the secret and project query parameters. -/
theorem container_console_body_and_url (host operation_id console_secret project : Str)
    (h : strContains host ':' = false) :
    create_console_body true =
      { width := 80, height := 25, type := "console".toList, force := true } ∧
    build_ws_url host operation_id console_secret project =
      "wss://".toList ++ host ++ ":8443/1.0/operations/".toList ++ operation_id ++
        "/websocket?secret=".toList ++ console_secret ++ "&project=".toList ++ project := by
  refine ⟨rfl, ?_⟩
  have hb := get_scheme_and_host_bare h
  have hb1 : (get_scheme_and_host host).1 = "https".toList := by rw [hb]
  have hb2 : (get_scheme_and_host host).2 = host ++ ":8443".toList := by rw [hb]
  unfold build_ws_url
  rw [hb1, hb2, if_neg (by decide)]
  simp only [List.append_assoc]
  rw [← List.append_assoc ":8443".toList]
  rw [show (":8443".toList ++ "/1.0/operations/".toList : Str) =
    ":8443/1.0/operations/".toList by decide]

/-- Witness for `container_console_body_and_url` at a concrete host and
session. -/
theorem container_console_body_and_url_witness :
    create_console_body true =
      { width := 80, height := 25, type := "console".toList, force := true } ∧
    build_ws_url "host".toList "op7".toList "sec".toList "default".toList =
      "wss://".toList ++ "host".toList ++ ":8443/1.0/operations/".toList ++ "op7".toList ++
        "/websocket?secret=".toList ++ "sec".toList ++ "&project=".toList ++
        "default".toList :=
  container_console_body_and_url "host".toList "op7".toList "sec".toList "default".toList
    (by decide)

/-- C5 counterexample: resolution does not return the bare pipe path for a
local-pipe specification (it appends a colon-slash suffix), and it does not
return the remainder after the scheme verbatim when that remainder contains
a further scheme separator. -/
theorem get_scheme_and_host_claim_counterexample :
    get_scheme_and_host ("unix:/s".toList) = ("https+unix".toList, "/s:/".toList) ∧
    "/s:/".toList ≠ "/s".toList ∧
    get_scheme_and_host ("https://a://b".toList) = ("https".toList, "a".toList) ∧
    "a".toList ≠ "a://b".toList := by decide

/-- C5 (amended): endpoint resolution returns, for a `unix:` specification,
the pipe path with `":/"` appended as the host component under the
local-pipe scheme; for an explicit `http://` or `https://` specification,
the first separator-free segment of the remainder — equal to the verbatim
remainder whenever the remainder contains no further `"://"`; for a bare
host with no colon, the host with the default port 8443 appended; and
resolution is a pure function, hence deterministic. -/
theorem get_scheme_and_host_amended (remote : Str) :
    (("unix:".toList).isPrefixOf remote = true →
      get_scheme_and_host remote = ("https+unix".toList, remote.drop 5 ++ ":/".toList)) ∧
    (∀ rest, remote = "https://".toList ++ rest → isSubstring "://".toList rest = false →
      get_scheme_and_host remote = ("https".toList, rest)) ∧
    (∀ rest, remote = "http://".toList ++ rest → isSubstring "://".toList rest = false →
      get_scheme_and_host remote = ("https".toList, rest)) ∧
    (strContains remote ':' = false →
      get_scheme_and_host remote = ("https".toList, remote ++ ":8443".toList)) ∧
    get_scheme_and_host remote = get_scheme_and_host remote := by
  refine ⟨fun h => get_scheme_and_host_unix h, ?_, ?_, fun h => get_scheme_and_host_bare h, rfl⟩
  · intro rest hr hno
    subst hr
    exact get_scheme_and_host_https rest hno
  · intro rest hr hno
    subst hr
    exact get_scheme_and_host_http rest hno

/-- Witness for `get_scheme_and_host_amended` at concrete specifications. -/
theorem get_scheme_and_host_amended_witness :
    get_scheme_and_host ("unix:/var/sock".toList) =
      ("https+unix".toList, "/var/sock:/".toList) ∧
    get_scheme_and_host ("https://a:1".toList) = ("https".toList, "a:1".toList) ∧
    get_scheme_and_host ("myhost".toList) = ("https".toList, "myhost:8443".toList) :=
  ⟨(get_scheme_and_host_amended ("unix:/var/sock".toList)).1 (by decide),
   (get_scheme_and_host_amended ("https://a:1".toList)).2.1 "a:1".toList (by decide) (by decide),
   (get_scheme_and_host_amended ("myhost".toList)).2.2.2.1 (by decide)⟩

/-- C6 counterexample: an empty remote specification does not fail — the
constructor substitutes the default unix socket and resolution returns the
default local-pipe endpoint. -/
theorem empty_remote_counterexample :
    initRemote [] = "unix:/var/lib/incus/unix.socket".toList ∧
    get_scheme_and_host (initRemote []) =
      ("https+unix".toList, "/var/lib/incus/unix.socket:/".toList) := by decide

/-- C6 (amended): endpoint resolution never raises `ConfigurationError` (no
such failure path exists): an empty specification is replaced by the
default unix-socket remote at construction and resolves to the default
local-pipe endpoint, and every specification resolves totally to an
endpoint whose scheme is either the local-pipe scheme or https. -/
theorem resolve_never_fails (remote : Str) :
    ((get_scheme_and_host (initRemote remote)).1 = "https+unix".toList ∨
     (get_scheme_and_host (initRemote remote)).1 = "https".toList) ∧
    (remote = [] →
      get_scheme_and_host (initRemote remote) =
        ("https+unix".toList, "/var/lib/incus/unix.socket:/".toList)) := by
  constructor
  · unfold get_scheme_and_host
    split_ifs <;> simp
  · intro h
    subst h
    decide

/-- Witness for `resolve_never_fails` at the empty specification. -/
theorem resolve_never_fails_witness :
    get_scheme_and_host (initRemote []) =
      ("https+unix".toList, "/var/lib/incus/unix.socket:/".toList) :=
  (resolve_never_fails []).2 rfl

/-- Keys after a dict assignment: unchanged when the key was present,
extended by the key otherwise. -/
theorem dictInsert_keys {α : Type} (k : Str) (v : α) :
    ∀ l : List (Str × α),
      (dictInsert k v l).map Prod.fst =
        if k ∈ l.map Prod.fst then l.map Prod.fst else l.map Prod.fst ++ [k] := by
  intro l
  induction l with
  | nil => simp [dictInsert]
  | cons kv t ih =>
    obtain ⟨k1, v1⟩ := kv
    by_cases hk : k1 = k
    · subst hk
      have hins : dictInsert k1 v ((k1, v1) :: t) = (k1, v) :: t := by
        rw [dictInsert, if_pos rfl]
      rw [hins]
      simp only [List.map_cons]
      rw [if_pos (List.mem_cons_self _ _)]
    · simp only [dictInsert, if_neg hk, List.map_cons, ih]
      by_cases hm : k ∈ t.map Prod.fst
      · rw [if_pos hm, if_pos (by simp [hm])]
      · rw [if_neg hm, if_neg ?_]
        · simp
        · simp only [List.map_cons, List.mem_cons]
          rintro (rfl | hc)
          · exact hk rfl
          · exact hm hc

/-- Looking up the key just assigned returns the assigned value. -/
theorem dictGet_insert {α : Type} (k : Str) (v : α) :
    ∀ l, dictGet k (dictInsert k v l) = some v := by
  intro l
  induction l with
  | nil => simp [dictInsert, dictGet]
  | cons kv t ih =>
    obtain ⟨k1, v1⟩ := kv
    by_cases hk : k1 = k
    · subst hk
      simp [dictInsert, dictGet]
    · simp [dictInsert, dictGet, hk, ih]

/-- C2 counterexample: starting the same shell bridge twice from the empty
state spawns a second process and silently replaces the registry entry;
the first process (pid 0) is still running but no registry entry refers to
it — a bridge process is left running outside the registry. -/
theorem duplicate_start_leaves_untracked_bridge :
    (0 : Nat) ∈ (proxy_shell "a".toList (proxy_shell "a".toList
      { active_proxies := [], socket_paths := [], running := [], fs := [],
        nextPid := 0 })).running ∧
    (∀ kv ∈ (proxy_shell "a".toList (proxy_shell "a".toList
      { active_proxies := [], socket_paths := [], running := [], fs := [],
        nextPid := 0 })).active_proxies, kv.2 ≠ 0) := by decide

/-- C2 (amended): the registry itself holds at most one entry per key —
key-uniqueness is preserved by every start operation and a duplicate start
replaces the entry with the new bridge — but the replaced bridge process is
not terminated: every previously running process is still running after the
start, so a duplicate start leaks the old bridge outside the registry. -/
theorem start_bridge_replaces_but_leaks (st : ProxyState) (kind name : Str)
    (hnd : (st.active_proxies.map Prod.fst).Nodup) :
    ((start_bridge kind name st).active_proxies.map Prod.fst).Nodup ∧
    dictGet (bridgeKey kind name) (start_bridge kind name st).active_proxies =
      some st.nextPid ∧
    (∀ p ∈ st.running, p ∈ (start_bridge kind name st).running) := by
  refine ⟨?_, dictGet_insert _ _ _, fun p hp => List.mem_cons_of_mem _ hp⟩
  show ((dictInsert (bridgeKey kind name) st.nextPid st.active_proxies).map
    Prod.fst).Nodup
  rw [dictInsert_keys]
  split_ifs with hm
  · exact hnd
  · exact List.Nodup.append hnd (List.nodup_singleton _)
      (fun a ha hk2 => hm ((List.mem_singleton.mp hk2) ▸ ha))

/-- Witness for `start_bridge_replaces_but_leaks`: a duplicate shell start
over a one-entry registry. -/
theorem start_bridge_replaces_but_leaks_witness :
    ((start_bridge "shell".toList "a".toList
      { active_proxies := [("shell_a".toList, 0)], socket_paths := [],
        running := [0], fs := [], nextPid := 1 }).active_proxies.map Prod.fst).Nodup ∧
    dictGet (bridgeKey "shell".toList "a".toList)
      (start_bridge "shell".toList "a".toList
        { active_proxies := [("shell_a".toList, 0)], socket_paths := [],
          running := [0], fs := [], nextPid := 1 }).active_proxies = some 1 ∧
    (∀ p ∈ [0], p ∈ (start_bridge "shell".toList "a".toList
      { active_proxies := [("shell_a".toList, 0)], socket_paths := [],
        running := [0], fs := [], nextPid := 1 }).running) :=
  start_bridge_replaces_but_leaks
    { active_proxies := [("shell_a".toList, 0)], socket_paths := [],
      running := [0], fs := [], nextPid := 1 }
    "shell".toList "a".toList (by decide)

/-- C8 counterexample: when the capture log never appears within the
timeout, the call fails but the stand-in remote-viewer executable is left
on disk. -/
theorem vga_timeout_leaves_stand_in :
    (proxy_vga_console_files "/tmp/console-share/bin".toList
        "/tmp/console-share-x.path".toList CaptureOutcome.timedOut []).2 = false ∧
    fake_viewer_path "/tmp/console-share/bin".toList ∈
      (proxy_vga_console_files "/tmp/console-share/bin".toList
        "/tmp/console-share-x.path".toList CaptureOutcome.timedOut []).1 := by decide

/-- C8 (amended): on every exit path of the VGA interception flow —
including the capture-timeout failure — the polled capture log is removed
from disk, but the stand-in remote-viewer executable created by
`_create_fake_remote_viewer` is never removed and remains on disk. -/
theorem vga_cleanup_amended (viewer_dir socket_log : Str) (cap : CaptureOutcome)
    (fs : List Str) (hne : fake_viewer_path viewer_dir ≠ socket_log) :
    socket_log ∉ (proxy_vga_console_files viewer_dir socket_log cap fs).1 ∧
    fake_viewer_path viewer_dir ∈
      (proxy_vga_console_files viewer_dir socket_log cap fs).1 := by
  have hmem : fake_viewer_path viewer_dir ∈ fsAdd (fake_viewer_path viewer_dir) fs := by
    unfold fsAdd
    split_ifs with h
    · exact h
    · exact List.mem_cons_self _ _
  have h1 : socket_log ∉
      fsRemove socket_log (fsAdd (fake_viewer_path viewer_dir) fs) := by
    simp [fsRemove, List.mem_filter]
  have h2 : fake_viewer_path viewer_dir ∈
      fsRemove socket_log (fsAdd (fake_viewer_path viewer_dir) fs) := by
    simp [fsRemove, List.mem_filter, hmem, hne]
  cases cap with
  | timedOut => exact ⟨h1, h2⟩
  | captured sp => exact ⟨h1, h2⟩

/-- Witness for `vga_cleanup_amended` at the concrete default paths. -/
theorem vga_cleanup_amended_witness :
    "/tmp/console-share-x.path".toList ∉
      (proxy_vga_console_files "/tmp/console-share/bin".toList
        "/tmp/console-share-x.path".toList CaptureOutcome.timedOut []).1 ∧
    fake_viewer_path "/tmp/console-share/bin".toList ∈
      (proxy_vga_console_files "/tmp/console-share/bin".toList
        "/tmp/console-share-x.path".toList CaptureOutcome.timedOut []).1 :=
  vga_cleanup_amended "/tmp/console-share/bin".toList
    "/tmp/console-share-x.path".toList CaptureOutcome.timedOut [] (by decide)

/-- `isSubstring` decides contiguous containment. -/
theorem isSubstring_decides_containment {n : Str} : ∀ {h : Str}, isSubstring n h = true ↔ n <:+: h := by
  intro h
  induction h with
  | nil =>
    rw [isSubstring, List.isPrefixOf_iff_prefix, List.prefix_nil, List.infix_nil]
  | cons c t ih =>
    rw [isSubstring, Bool.or_eq_true, List.isPrefixOf_iff_prefix, ih,
      List.infix_cons_iff]

/-- The negative form of `isSubstring_decides_containment`. -/
theorem isSubstring_eq_false_iff {n h : Str} : isSubstring n h = false ↔ ¬ n <:+: h := by
  rw [← isSubstring_decides_containment]
  cases isSubstring n h <;> simp

/-- C9: `stop_proxy` terminates and removes exactly the registry entries
whose key contains the given instance name as a substring — all session
kinds of that instance, but also any other instance whose name contains it
— terminating their processes; when no key contains the name, the registry
and the process set are left untouched (a no-op with no process side
effects). -/
theorem stop_proxy_behavior (st : ProxyState) (n : Str) :
    (∀ kv, kv ∈ (stop_proxy n st).active_proxies ↔
      kv ∈ st.active_proxies ∧ ¬ n <:+: kv.1) ∧
    (∀ kv ∈ st.active_proxies, n <:+: kv.1 → kv.2 ∉ (stop_proxy n st).running) ∧
    ((∀ kv ∈ st.active_proxies, ¬ n <:+: kv.1) →
      (stop_proxy n st).active_proxies = st.active_proxies ∧
      (stop_proxy n st).running = st.running) := by
  refine ⟨?_, ?_, ?_⟩
  · intro kv
    show kv ∈ st.active_proxies.filter (fun kv => !(isSubstring n kv.1)) ↔ _
    rw [List.mem_filter]
    simp [isSubstring_eq_false_iff]
  · intro kv hkv hinf
    show kv.2 ∉ st.running.filter _
    rw [List.mem_filter]
    rintro ⟨-, hpred⟩
    have hmatched : kv ∈ st.active_proxies.filter (fun kv => isSubstring n kv.1) :=
      List.mem_filter.mpr ⟨hkv, isSubstring_decides_containment.mpr hinf⟩
    have : (st.active_proxies.filter (fun kv => isSubstring n kv.1)).any
        (fun x => decide (x.2 = kv.2)) = true :=
      List.any_eq_true.mpr ⟨kv, hmatched, by simp⟩
    rw [this] at hpred
    cases hpred
  · intro hall
    have hmatched : st.active_proxies.filter (fun kv => isSubstring n kv.1) = [] := by
      rw [List.filter_eq_nil_iff]
      intro kv hkv
      simp [isSubstring_decides_containment, hall kv hkv]
    constructor
    · show st.active_proxies.filter _ = st.active_proxies
      rw [List.filter_eq_self]
      intro kv hkv
      simp [isSubstring_eq_false_iff, hall kv hkv]
    · show st.running.filter _ = st.running
      rw [List.filter_eq_self]
      intro pid _
      simp [hmatched]

/-- Witness for `stop_proxy_behavior`: stopping `web` terminates the
process of the `shell_web1` bridge. -/
theorem stop_proxy_behavior_witness :
    (0 : Nat) ∉ (stop_proxy "web".toList
      { active_proxies := [("shell_web1".toList, 0), ("vga_db".toList, 1)],
        socket_paths := [], running := [0, 1], fs := [], nextPid := 2 }).running :=
  (stop_proxy_behavior
    { active_proxies := [("shell_web1".toList, 0), ("vga_db".toList, 1)],
      socket_paths := [], running := [0, 1], fs := [], nextPid := 2 }
    "web".toList).2.1 ("shell_web1".toList, 0) (by decide) (by decide)

/-- C10: `get_next_port` performs no port tracking — it always returns the
configured `start_port` (8000 in the default configuration) — so every
start operation invoked without an explicit port on instances absent from
the configuration is assigned the same listening port. -/
theorem get_next_port_no_tracking (cfg : Config) (n1 n2 : Str)
    (h1 : get_instance_config cfg n1 = none)
    (h2 : get_instance_config cfg n2 = none) :
    get_next_port cfg = cfg.start_port ∧
    resolve_listen_port cfg n1 none = some cfg.start_port ∧
    resolve_listen_port cfg n1 none = resolve_listen_port cfg n2 none ∧
    get_next_port default_config = 8000 := by
  refine ⟨rfl, ?_, ?_, rfl⟩
  · simp [resolve_listen_port, h1, get_next_port]
  · simp [resolve_listen_port, h1, h2]

/-- Witness for `get_next_port_no_tracking`: two unconfigured instances both
get port 8000 under the default configuration. -/
theorem get_next_port_no_tracking_witness :
    resolve_listen_port default_config "web1".toList none = some 8000 ∧
    resolve_listen_port default_config "web1".toList none =
      resolve_listen_port default_config "db1".toList none :=
  ⟨(get_next_port_no_tracking default_config "web1".toList "db1".toList rfl rfl).2.1,
   (get_next_port_no_tracking default_config "web1".toList "db1".toList rfl rfl).2.2.1⟩
